import Mathlib

/-!
Verification of the resilient API client of Reviews-Copilot
(frontend service layer: retry engine, error translation, query-building,
health polling).  Definitions are shallow embeddings of the TypeScript
source; the network is modelled as a function from the attempt index to
the outcome of that attempt.
-/

set_option linter.unusedVariables false

/-- The response attached to a rejected axios call: its HTTP status code and
the optional structured detail field of its JSON body
(error.response.status, error.response.data.detail). -/
structure ErrResponse where
  status : Nat
  detail : Option String
deriving DecidableEq

/-- An axios error object: optional transport code (ECONNABORTED on timeout),
optional attached response (absent when no response was received), and the
Error message string. -/
structure AxiosError where
  code : Option String
  response : Option ErrResponse
  message : String
deriving DecidableEq

/-- A successful (2xx) response envelope. -/
structure Response where
  status : Nat
deriving DecidableEq

/-- MAX_RETRIES = 3 from the source configuration. -/
def MAX_RETRIES : Nat := 3

/-- JavaScript a || b on an optional string: an absent or empty (falsy)
string falls through to the alternative. -/
def jsOr (a : Option String) (b : String) : String :=
  match a with
  | some s => if s = "" then b else s
  | none => b

/-- shouldRetry from the source: retry on timeout code ECONNABORTED, on any
status at least 500, or on status 429. -/
def shouldRetry (e : AxiosError) : Bool :=
  e.code == some "ECONNABORTED"
    || (match e.response with
        | some r => decide (500 ≤ r.status)
        | none => false)
    || (match e.response with
        | some r => r.status == 429
        | none => false)

/-- retryRequest from the source: issue the attempt; on failure, if the
retry counter is below MAX_RETRIES and the error is retryable, recurse with
the counter incremented, else rethrow.  The network is the function from
attempt index to outcome. -/
def retryRequest (call : Nat → Except AxiosError Response) (retryCount : Nat) :
    Except AxiosError Response :=
  match call retryCount with
  | .ok r => .ok r
  | .error e =>
    if h : retryCount < MAX_RETRIES ∧ shouldRetry e = true then
      retryRequest call (retryCount + 1)
    else
      .error e
termination_by MAX_RETRIES - retryCount
decreasing_by
  omega

deriving instance DecidableEq for Except

/-- Observable behaviour of one retryRequest run: the final outcome, the
list of attempt counters at which a transport call was issued, and the list
of backoff delays (in ms) waited between attempts. -/
structure RetryTrace where
  result : Except AxiosError Response
  attempts : List Nat
  delays : List Nat
deriving DecidableEq

/-- retryRequest instrumented with its attempt and delay trace: identical
control flow, additionally recording each issued attempt counter and each
setTimeout delay 1000 * (retryCount + 1). -/
def retryRequestTrace (call : Nat → Except AxiosError Response) (retryCount : Nat) :
    RetryTrace :=
  match call retryCount with
  | .ok r => ⟨.ok r, [retryCount], []⟩
  | .error e =>
    if h : retryCount < MAX_RETRIES ∧ shouldRetry e = true then
      let rest := retryRequestTrace call (retryCount + 1)
      ⟨rest.result, retryCount :: rest.attempts, 1000 * (retryCount + 1) :: rest.delays⟩
    else
      ⟨.error e, [retryCount], []⟩
termination_by MAX_RETRIES - retryCount
decreasing_by
  omega

theorem retryRequest_ok (call : Nat → Except AxiosError Response) (n : Nat)
    (r : Response) (h : call n = .ok r) : retryRequest call n = .ok r := by
  rw [retryRequest, h]

theorem retryRequest_retry (call : Nat → Except AxiosError Response) (n : Nat)
    (e : AxiosError) (h : call n = .error e) (h2 : n < MAX_RETRIES)
    (h3 : shouldRetry e = true) :
    retryRequest call n = retryRequest call (n + 1) := by
  rw [retryRequest, h]
  simp [h2, h3]

theorem retryRequest_stop (call : Nat → Except AxiosError Response) (n : Nat)
    (e : AxiosError) (h : call n = .error e)
    (h2 : ¬(n < MAX_RETRIES ∧ shouldRetry e = true)) :
    retryRequest call n = .error e := by
  rw [retryRequest, h]
  simp [h2]

theorem retryRequestTrace_ok (call : Nat → Except AxiosError Response) (n : Nat)
    (r : Response) (h : call n = .ok r) :
    retryRequestTrace call n = ⟨.ok r, [n], []⟩ := by
  rw [retryRequestTrace, h]

theorem retryRequestTrace_retry (call : Nat → Except AxiosError Response) (n : Nat)
    (e : AxiosError) (h : call n = .error e) (h2 : n < MAX_RETRIES)
    (h3 : shouldRetry e = true) :
    retryRequestTrace call n =
      ⟨(retryRequestTrace call (n + 1)).result,
       n :: (retryRequestTrace call (n + 1)).attempts,
       1000 * (n + 1) :: (retryRequestTrace call (n + 1)).delays⟩ := by
  rw [retryRequestTrace, h]
  simp [h2, h3]

theorem retryRequestTrace_stop (call : Nat → Except AxiosError Response) (n : Nat)
    (e : AxiosError) (h : call n = .error e)
    (h2 : ¬(n < MAX_RETRIES ∧ shouldRetry e = true)) :
    retryRequestTrace call n = ⟨.error e, [n], []⟩ := by
  rw [retryRequestTrace, h]
  simp [h2]

/-- Induction principle following the recursion structure of
retryRequestTrace. -/
theorem retryRequestTrace_ind (call : Nat → Except AxiosError Response)
    (P : Nat → RetryTrace → Prop)
    (hok : ∀ n r, call n = .ok r → P n ⟨.ok r, [n], []⟩)
    (hstop : ∀ n e, call n = .error e →
      ¬(n < MAX_RETRIES ∧ shouldRetry e = true) → P n ⟨.error e, [n], []⟩)
    (hretry : ∀ n e, call n = .error e → n < MAX_RETRIES → shouldRetry e = true →
      P (n + 1) (retryRequestTrace call (n + 1)) →
      P n ⟨(retryRequestTrace call (n + 1)).result,
           n :: (retryRequestTrace call (n + 1)).attempts,
           1000 * (n + 1) :: (retryRequestTrace call (n + 1)).delays⟩) :
    ∀ n, P n (retryRequestTrace call n) := by
  have key : ∀ k n, MAX_RETRIES - n < k → P n (retryRequestTrace call n) := by
    intro k
    induction k with
    | zero => intro n hn; omega
    | succ k ih =>
      intro n hn
      rcases hcall : call n with e | r
      · by_cases hc : n < MAX_RETRIES ∧ shouldRetry e = true
        · rw [retryRequestTrace_retry call n e hcall hc.1 hc.2]
          refine hretry n e hcall hc.1 hc.2 (ih (n + 1) ?_)
          have := hc.1
          omega
        · rw [retryRequestTrace_stop call n e hcall hc]
          exact hstop n e hcall hc
      · rw [retryRequestTrace_ok call n r hcall]
        exact hok n r hcall
  intro n
  exact key (MAX_RETRIES - n + 1) n (by omega)

/-- The trace refines retryRequest: its recorded result is exactly what
retryRequest returns. -/
theorem retryRequestTrace_result (call : Nat → Except AxiosError Response) :
    ∀ n, (retryRequestTrace call n).result = retryRequest call n := by
  refine retryRequestTrace_ind call
    (fun n t => t.result = retryRequest call n) ?_ ?_ ?_
  · intro n r h
    rw [retryRequest_ok call n r h]
  · intro n e h h2
    rw [retryRequest_stop call n e h h2]
  · intro n e h h2 h3 ih
    rw [retryRequest_retry call n e h h2 h3]
    exact ih

/-- A run always issues the attempts n, n+1, ..., n+len-1 for some positive
len, and waits the linearly growing delays between consecutive attempts. -/
theorem retryRequestTrace_shape (call : Nat → Except AxiosError Response) :
    ∀ n, ∃ len, 1 ≤ len ∧
      (retryRequestTrace call n).attempts = List.range' n len ∧
      (retryRequestTrace call n).delays =
        (List.range' n (len - 1)).map (fun j => 1000 * (j + 1)) := by
  refine retryRequestTrace_ind call
    (fun n t => ∃ len, 1 ≤ len ∧ t.attempts = List.range' n len ∧
      t.delays = (List.range' n (len - 1)).map (fun j => 1000 * (j + 1))) ?_ ?_ ?_
  · intro n r h
    exact ⟨1, by omega, by simp, by simp⟩
  · intro n e h h2
    exact ⟨1, by omega, by simp, by simp⟩
  · intro n e h h2 h3 ih
    obtain ⟨m, hm, ha, hd⟩ := ih
    refine ⟨m + 1, by omega, ?_, ?_⟩
    · simp only [ha]
      rw [List.range'_succ]
    · simp only [hd]
      rw [show m + 1 - 1 = (m - 1) + 1 by omega, List.range'_succ, List.map_cons]

/-- The attempts list of a run is never empty. -/
theorem retryRequestTrace_attempts_ne_nil (call : Nat → Except AxiosError Response)
    (n : Nat) : (retryRequestTrace call n).attempts ≠ [] := by
  obtain ⟨len, hm, ha, _⟩ := retryRequestTrace_shape call n
  rw [ha]
  intro hcontra
  rw [List.range'_eq_nil] at hcontra
  omega

/-- A review as declared in the frontend types (optional annotation fields
modelled as options). -/
structure Review where
  id : Nat
  location : String
  rating : Nat
  text : String
  date : String
  sentiment : Option String := none
  topic : Option String := none
deriving DecidableEq

/-- Observable outcome of one Domain API Facade operation: the value it
resolves with or the user-facing error message it throws, together with the
number of transport calls it issued. -/
structure OpTrace where
  result : Except String Response
  networkCalls : Nat
deriving DecidableEq

/-- A primitive query-parameter value. -/
inductive QVal where
  | nat (n : Nat)
  | str (s : String)
deriving DecidableEq

/-- The caller argument of getReviews, mirroring
Partial (ReviewFilters and Pagination): every field optional. -/
structure GetReviewsParams where
  location : Option String := none
  sentiment : Option String := none
  rating : Option Nat := none
  topic : Option String := none
  search : Option String := none
  page : Option Nat := none
  size : Option Nat := none
deriving DecidableEq

/-- One optional query entry: present exactly when the caller supplied the
field. -/
def optEntry (key : String) (f : α → QVal) : Option α → List (String × QVal)
  | some v => [(key, f v)]
  | none => []

/-- The query object getReviews sends, built by the object literal
spread of page 1 and page_size 10 defaults with the caller params:
a caller-supplied page overrides the page default (same key), while every
other caller key — including size — is distinct from both default keys and
is added alongside them. -/
def getReviewsQuery (p : GetReviewsParams) : List (String × QVal) :=
  [("page", QVal.nat (p.page.getD 1)), ("page_size", QVal.nat 10)]
    ++ optEntry "location" QVal.str p.location
    ++ optEntry "sentiment" QVal.str p.sentiment
    ++ optEntry "rating" QVal.nat p.rating
    ++ optEntry "topic" QVal.str p.topic
    ++ optEntry "search" QVal.str p.search
    ++ optEntry "size" QVal.nat p.size

/-- getReviews: issues the request through retryRequest and on failure wraps
the error message with the fetch-reviews prefix. -/
def getReviews (p : GetReviewsParams) (call : Nat → Except AxiosError Response) :
    OpTrace :=
  let t := retryRequestTrace call 0
  match t.result with
  | .ok r => ⟨.ok r, t.attempts.length⟩
  | .error e => ⟨.error ("Failed to fetch reviews: " ++ e.message), t.attempts.length⟩

/-- getReview: a 404 status on the attached response becomes the domain
not-found message naming the id; every other failure is wrapped with the
fetch-review prefix around the raw error message. -/
def getReview (id : Nat) (call : Nat → Except AxiosError Response) : OpTrace :=
  let t := retryRequestTrace call 0
  match t.result with
  | .ok r => ⟨.ok r, t.attempts.length⟩
  | .error e =>
    match e.response with
    | some resp =>
      if resp.status = 404 then
        ⟨.error ("Review with ID " ++ toString id ++ " not found"), t.attempts.length⟩
      else
        ⟨.error ("Failed to fetch review: " ++ e.message), t.attempts.length⟩
    | none => ⟨.error ("Failed to fetch review: " ++ e.message), t.attempts.length⟩

/-- ingestReviews: validates that the input is an array (none models a
non-array value) and non-empty before any network call; then posts through
retryRequest, wrapping any failure — including the local validation error —
with the ingest prefix. -/
def ingestReviews (reviews : Option (List Review))
    (call : Nat → Except AxiosError Response) : OpTrace :=
  match reviews with
  | none =>
    ⟨.error "Failed to ingest reviews: Reviews array is required and cannot be empty", 0⟩
  | some rs =>
    if rs.length = 0 then
      ⟨.error "Failed to ingest reviews: Reviews array is required and cannot be empty", 0⟩
    else
      let t := retryRequestTrace call 0
      match t.result with
      | .ok r => ⟨.ok r, t.attempts.length⟩
      | .error e => ⟨.error ("Failed to ingest reviews: " ++ e.message), t.attempts.length⟩

/-- suggestReply: 404 becomes the not-found message naming the id, 503 the
AI-unavailable message, anything else the generic reply-failure wrapping of
the raw error message. -/
def suggestReply (id : Nat) (call : Nat → Except AxiosError Response) : OpTrace :=
  let t := retryRequestTrace call 0
  match t.result with
  | .ok r => ⟨.ok r, t.attempts.length⟩
  | .error e =>
    match e.response with
    | some resp =>
      if resp.status = 404 then
        ⟨.error ("Review with ID " ++ toString id ++ " not found"), t.attempts.length⟩
      else if resp.status = 503 then
        ⟨.error "AI reply generation is currently unavailable", t.attempts.length⟩
      else
        ⟨.error ("Failed to generate reply: " ++ e.message), t.attempts.length⟩
    | none => ⟨.error ("Failed to generate reply: " ++ e.message), t.attempts.length⟩

/-- getAnalytics: 503 becomes the analytics-unavailable message; any other
failure with a response is wrapped around the structured detail (falling
back to the raw message), and a failure without a response around the raw
message. -/
def getAnalytics (call : Nat → Except AxiosError Response) : OpTrace :=
  let t := retryRequestTrace call 0
  match t.result with
  | .ok r => ⟨.ok r, t.attempts.length⟩
  | .error e =>
    match e.response with
    | some resp =>
      if resp.status = 503 then
        ⟨.error "Analytics are currently unavailable", t.attempts.length⟩
      else
        ⟨.error ("Failed to fetch analytics: " ++ jsOr resp.detail e.message),
         t.attempts.length⟩
    | none => ⟨.error ("Failed to fetch analytics: " ++ e.message), t.attempts.length⟩

/-- JavaScript String.trim: drop whitespace from both ends. -/
def jsTrim (s : String) : String :=
  ⟨((s.data.dropWhile Char.isWhitespace).reverse.dropWhile Char.isWhitespace).reverse⟩

/-- searchSimilar: validates the query before any network call (empty or
whitespace-only fails fast); 503 becomes the search-unavailable message;
other failures are wrapped with the search prefix. -/
def searchSimilar (query : String) (k : Nat)
    (call : Nat → Except AxiosError Response) : OpTrace :=
  if query = "" ∨ (jsTrim query).length = 0 then
    ⟨.error "Failed to search reviews: Search query is required", 0⟩
  else
    let t := retryRequestTrace call 0
    match t.result with
    | .ok r => ⟨.ok r, t.attempts.length⟩
    | .error e =>
      match e.response with
      | some resp =>
        if resp.status = 503 then
          ⟨.error "Search functionality is currently unavailable", t.attempts.length⟩
        else
          ⟨.error ("Failed to search reviews: " ++ jsOr resp.detail e.message),
           t.attempts.length⟩
      | none => ⟨.error ("Failed to search reviews: " ++ e.message), t.attempts.length⟩

/-- processReviews: 503 becomes the batch-processing-unavailable message;
other failures are wrapped with the process prefix. -/
def processReviews (call : Nat → Except AxiosError Response) : OpTrace :=
  let t := retryRequestTrace call 0
  match t.result with
  | .ok r => ⟨.ok r, t.attempts.length⟩
  | .error e =>
    match e.response with
    | some resp =>
      if resp.status = 503 then
        ⟨.error "Batch processing is currently unavailable", t.attempts.length⟩
      else
        ⟨.error ("Failed to process reviews: " ++ jsOr resp.detail e.message),
         t.attempts.length⟩
    | none => ⟨.error ("Failed to process reviews: " ++ e.message), t.attempts.length⟩

/-- The detail text the health handler extracts: the structured detail field
of the attached response when present and non-empty, else the raw error
message. -/
def classifiedDetail (e : AxiosError) : String :=
  match e.response with
  | some resp => jsOr resp.detail e.message
  | none => e.message

/-- healthCheck: issues exactly one direct transport call (api.get, not
retryRequest) and wraps any failure with the health-check prefix around the
classified detail. -/
def healthCheck (call : Nat → Except AxiosError Response) : OpTrace :=
  match call 0 with
  | .ok r => ⟨.ok r, 1⟩
  | .error e =>
    match e.response with
    | some resp =>
      ⟨.error ("Health check failed: " ++ jsOr resp.detail e.message), 1⟩
    | none => ⟨.error ("Health check failed: " ++ e.message), 1⟩

/-- The api-health belief of the ConnectionStatus component. -/
inductive ApiStatus where
  | checking
  | online
  | offline
deriving DecidableEq

/-- The connectivity status the monitor exposes. -/
inductive DisplayStatus where
  | Checking
  | Online
  | Offline
deriving DecidableEq

/-- The ConnectionStatus component state: the browser connectivity flag and
the last polled api status. -/
structure MonitorState where
  isOnline : Bool
  apiStatus : ApiStatus
deriving DecidableEq

/-- Events the ConnectionStatus component reacts to: a completed health
poll (with its success flag), and the browser offline and online window
events. -/
inductive MonitorEvent where
  | pollResult (ok : Bool)
  | browserOffline
  | browserOnline
deriving DecidableEq

/-- State update of the component: a poll result sets apiStatus to online
or offline; the browser events only toggle the isOnline flag. -/
def monitorStep : MonitorState → MonitorEvent → MonitorState
  | s, .pollResult ok => { s with apiStatus := if ok then .online else .offline }
  | s, .browserOffline => { s with isOnline := false }
  | s, .browserOnline => { s with isOnline := true }

/-- Transport calls each event involves: a poll result is the completion of
one healthCheck call; the browser event handlers perform none. -/
def monitorCalls : MonitorEvent → Nat
  | .pollResult _ => 1
  | .browserOffline => 0
  | .browserOnline => 0

/-- The connectivity status derived from the component state, as rendered:
an offline browser shows Offline; otherwise the api status shows Online,
Offline, or Checking. -/
def displayStatus (s : MonitorState) : DisplayStatus :=
  if s.isOnline = false then .Offline
  else
    match s.apiStatus with
    | .checking => .Checking
    | .online => .Online
    | .offline => .Offline

/-- Initial component state: isOnline from navigator.onLine, apiStatus
checking. -/
def monitorInit (navOnline : Bool) : MonitorState :=
  { isOnline := navOnline, apiStatus := .checking }

theorem string_data_append (s t : String) : (s ++ t).data = s.data ++ t.data := rfl

theorem string_eq_of_data (s t : String) (h : s.data = t.data) : s = t :=
  String.ext h

theorem string_append_empty (s : String) : s ++ "" = s := by
  apply string_eq_of_data
  rw [string_data_append]
  show s.data ++ [] = s.data
  simp

theorem string_append_assoc (a b c : String) : a ++ b ++ c = a ++ (b ++ c) := by
  apply string_eq_of_data
  simp [string_data_append, List.append_assoc]

theorem head_data_append (a x : String) (ha : a.data ≠ []) :
    (a ++ x).data.head? = a.data.head? := by
  rw [string_data_append]
  cases hA : a.data with
  | nil => exact absurd hA ha
  | cons c cs => simp

/-- Two strings with different first characters stay different after
appending arbitrary tails. -/
theorem append_ne_append_of_head_ne (a x b y : String)
    (ha : a.data ≠ []) (hb : b.data ≠ [])
    (h : a.data.head? ≠ b.data.head?) : a ++ x ≠ b ++ y := by
  intro he
  apply h
  rw [← head_data_append a x ha, ← head_data_append b y hb, he]

/-- A string whose first character differs from that of b is not b followed
by anything. -/
theorem ne_append_of_head_ne (s b : String) (hs : s.data ≠ []) (hb : b.data ≠ [])
    (h : s.data.head? ≠ b.data.head?) : ∀ y, s ≠ b ++ y := by
  intro y he
  apply h
  rw [he]
  exact head_data_append b y hb

/-- The substring pat occurs somewhere in s. -/
def containsSubstr (s pat : String) : Prop :=
  ∃ pre post : String, s = pre ++ pat ++ post

/-- A constant retryable failure is attempted at counters 0,1,2,3 with the
linear delays, then surfaced. -/
theorem trace_const_retryable (e : AxiosError) (hr : shouldRetry e = true) :
    retryRequestTrace (fun _ => .error e) 0 =
      ⟨.error e, [0, 1, 2, 3], [1000, 2000, 3000]⟩ := by
  have h3 := retryRequestTrace_stop (fun _ => .error e) 3 e rfl (by simp [MAX_RETRIES])
  have h2 := retryRequestTrace_retry (fun _ => .error e) 2 e rfl (by norm_num [MAX_RETRIES]) hr
  have h1 := retryRequestTrace_retry (fun _ => .error e) 1 e rfl (by norm_num [MAX_RETRIES]) hr
  have h0 := retryRequestTrace_retry (fun _ => .error e) 0 e rfl (by norm_num [MAX_RETRIES]) hr
  simp [h0, h1, h2, h3]

/-- The result of a constant failure is always that error, retryable or
not. -/
theorem trace_const_error (e : AxiosError) :
    (retryRequestTrace (fun _ => .error e) 0).result = .error e := by
  by_cases hr : shouldRetry e = true
  · rw [trace_const_retryable e hr]
  · rw [retryRequestTrace_stop (fun _ => .error e) 0 e rfl (by simp [hr])]

/-- C1 (counterexample): the claim that a 503 ServiceUnavailable response is
never retried is false: shouldRetry classifies 503 as retryable (it is at
least 500), and a persistent 503 failure is attempted four times, that is,
retried three times. -/
theorem c1_counterexample :
    shouldRetry ⟨none, some ⟨503, none⟩, "Request failed with status code 503"⟩ = true ∧
    (retryRequestTrace
      (fun _ => .error ⟨none, some ⟨503, none⟩, "Request failed with status code 503"⟩)
      0).attempts = [0, 1, 2, 3] := by
  refine ⟨rfl, ?_⟩
  rw [trace_const_retryable
    ⟨none, some ⟨503, none⟩, "Request failed with status code 503"⟩ rfl]

/-- C1 (amended): a failed attempt at counter n is retried exactly when
n < 3 and the error carries the timeout code ECONNABORTED, an HTTP status
of at least 500 — which includes 503 ServiceUnavailable, so 503 IS
retried — or status 429; an error whose status is in the 400s other than
429 (Unauthorized 401 and other client errors) without the timeout code is
never retried, regardless of the attempt counter. -/
theorem c1_retry_policy (call : Nat → Except AxiosError Response) (n : Nat)
    (e : AxiosError) (hfail : call n = .error e) :
    (1 < (retryRequestTrace call n).attempts.length ↔
      (n < MAX_RETRIES ∧
        (e.code = some "ECONNABORTED" ∨
         (∃ s, e.response.map ErrResponse.status = some s ∧ 500 ≤ s) ∨
         e.response.map ErrResponse.status = some 429))) ∧
    (∀ s, e.response.map ErrResponse.status = some s → 400 ≤ s → s < 500 →
      s ≠ 429 → e.code ≠ some "ECONNABORTED" →
      (retryRequestTrace call n).attempts = [n]) := by
  have hsr : shouldRetry e = true ↔
      (e.code = some "ECONNABORTED" ∨
       (∃ s, e.response.map ErrResponse.status = some s ∧ 500 ≤ s) ∨
       e.response.map ErrResponse.status = some 429) := by
    unfold shouldRetry
    cases hresp : e.response with
    | none => simp
    | some r => simp [hresp, or_assoc]
  constructor
  · constructor
    · intro hlen
      by_cases hc : n < MAX_RETRIES ∧ shouldRetry e = true
      · exact ⟨hc.1, hsr.mp hc.2⟩
      · rw [retryRequestTrace_stop call n e hfail hc] at hlen
        simp at hlen
    · rintro ⟨hn, hcls⟩
      rw [retryRequestTrace_retry call n e hfail hn (hsr.mpr hcls)]
      have hpos : 0 < (retryRequestTrace call (n + 1)).attempts.length :=
        List.length_pos.mpr (retryRequestTrace_attempts_ne_nil call (n + 1))
      simp only [List.length_cons]
      omega
  · intro s hs h400 h500 h429 hcode
    have hr : ¬shouldRetry e = true := by
      rw [hsr]
      push_neg
      refine ⟨hcode, ?_, ?_⟩
      · intro t ht
        rw [hs] at ht
        have : s = t := by exact Option.some_inj.mp ht
        omega
      · intro hcontra
        rw [hs] at hcontra
        exact h429 (Option.some_inj.mp hcontra)
    rw [retryRequestTrace_stop call n e hfail (by tauto)]

/-- Witness for C1 (amended): a 429 failure at counter 0 is retried; a 401
failure is never retried. -/
theorem c1_retry_policy_witness :
    1 < (retryRequestTrace
      (fun _ => .error ⟨none, some ⟨429, none⟩, "Request failed with status code 429"⟩)
      0).attempts.length ∧
    (retryRequestTrace
      (fun _ => .error ⟨none, some ⟨401, none⟩, "Request failed with status code 401"⟩)
      0).attempts = [0] := by
  have h429 := c1_retry_policy
    (fun _ => .error ⟨none, some ⟨429, none⟩, "Request failed with status code 429"⟩)
    0 ⟨none, some ⟨429, none⟩, "Request failed with status code 429"⟩ rfl
  have h401 := c1_retry_policy
    (fun _ => .error ⟨none, some ⟨401, none⟩, "Request failed with status code 401"⟩)
    0 ⟨none, some ⟨401, none⟩, "Request failed with status code 401"⟩ rfl
  constructor
  · exact h429.1.mpr ⟨by norm_num [MAX_RETRIES], Or.inr (Or.inr rfl)⟩
  · exact h401.2 401 rfl (by norm_num) (by norm_num) (by norm_num) (by simp)

/-- C2: the delay recorded before the i-th retry of a logical call equals
1000 * (i + 1) milliseconds — 1000 before the first retry, 2000 before the
second, 3000 before the third; since the i-th retry follows the failure of
the attempt with counter i, the delay after failed attempt n is
1000 * (n + 1). -/
theorem c2_backoff_linear (call : Nat → Except AxiosError Response) (i : Nat)
    (h : i < (retryRequestTrace call 0).delays.length) :
    (retryRequestTrace call 0).delays[i]? = some (1000 * (i + 1)) := by
  obtain ⟨len, hlen, ha, hd⟩ := retryRequestTrace_shape call 0
  rw [hd] at h ⊢
  rw [List.length_map] at h
  have hi : i < len - 1 := by
    have := List.length_range' 0 (len - 1) 1
    simp at h
    omega
  rw [List.getElem?_map, List.getElem?_range' _ _ hi]
  simp

/-- Witness for C2: a single timeout followed by success waits exactly
1000 ms before its one retry. -/
theorem c2_backoff_linear_witness :
    (retryRequestTrace
      (fun n => if n = 0
        then .error ⟨some "ECONNABORTED", none, "timeout of 30000ms exceeded"⟩
        else .ok ⟨200⟩) 0).delays[0]? = some 1000 := by
  have e1 := retryRequestTrace_ok
    (fun n => if n = 0
      then .error ⟨some "ECONNABORTED", none, "timeout of 30000ms exceeded"⟩
      else .ok ⟨200⟩) 1 ⟨200⟩ rfl
  have e0 := retryRequestTrace_retry
    (fun n => if n = 0
      then .error ⟨some "ECONNABORTED", none, "timeout of 30000ms exceeded"⟩
      else .ok ⟨200⟩) 0 ⟨some "ECONNABORTED", none, "timeout of 30000ms exceeded"⟩
    rfl (by norm_num [MAX_RETRIES]) rfl
  have hlen : 0 < (retryRequestTrace
      (fun n => if n = 0
        then .error ⟨some "ECONNABORTED", none, "timeout of 30000ms exceeded"⟩
        else .ok ⟨200⟩) 0).delays.length := by
    simp [e0, e1]
  have h := c2_backoff_linear _ 0 hlen
  simpa using h

/-- C3: a logical call all of whose attempts fail with retryable errors is
attempted exactly four times (the initial attempt plus three retries, no
fifth attempt), and the engine then propagates the final classified error;
termination for every input is witnessed by retryRequest being a total
function. -/
theorem c3_exhaustion (call : Nat → Except AxiosError Response)
    (errOf : Nat → AxiosError)
    (hfail : ∀ n, call n = .error (errOf n))
    (hr : ∀ n, shouldRetry (errOf n) = true) :
    (retryRequestTrace call 0).attempts = [0, 1, 2, 3] ∧
    (retryRequestTrace call 0).result = .error (errOf 3) ∧
    retryRequest call 0 = .error (errOf 3) := by
  have h3 := retryRequestTrace_stop call 3 (errOf 3) (hfail 3) (by simp [MAX_RETRIES])
  have h2 := retryRequestTrace_retry call 2 (errOf 2) (hfail 2)
    (by norm_num [MAX_RETRIES]) (hr 2)
  have h1 := retryRequestTrace_retry call 1 (errOf 1) (hfail 1)
    (by norm_num [MAX_RETRIES]) (hr 1)
  have h0 := retryRequestTrace_retry call 0 (errOf 0) (hfail 0)
    (by norm_num [MAX_RETRIES]) (hr 0)
  refine ⟨?_, ?_, ?_⟩
  · simp [h0, h1, h2, h3]
  · simp [h0, h1, h2, h3]
  · rw [← retryRequestTrace_result]
    simp [h0, h1, h2, h3]

/-- Witness for C3: a persistent 500 failure is attempted exactly at
counters 0,1,2,3 and then surfaced. -/
theorem c3_exhaustion_witness :
    (retryRequestTrace
      (fun _ => .error ⟨none, some ⟨500, none⟩, "Request failed with status code 500"⟩)
      0).attempts = [0, 1, 2, 3] ∧
    retryRequest
      (fun _ => .error ⟨none, some ⟨500, none⟩, "Request failed with status code 500"⟩)
      0 = .error ⟨none, some ⟨500, none⟩, "Request failed with status code 500"⟩ := by
  have h := c3_exhaustion _
    (fun _ => ⟨none, some ⟨500, none⟩, "Request failed with status code 500"⟩)
    (fun _ => rfl) (fun _ => rfl)
  exact ⟨h.1, h.2.2⟩

/-- C4: ingestReviews on a non-array (none) or empty input and searchSimilar
on an empty or whitespace-only query issue zero network calls and fail with
their validation error messages. -/
theorem c4_fail_fast (call : Nat → Except AxiosError Response) (k : Nat)
    (q : String) (hq : jsTrim q = "") :
    ingestReviews none call =
      ⟨.error "Failed to ingest reviews: Reviews array is required and cannot be empty", 0⟩ ∧
    ingestReviews (some []) call =
      ⟨.error "Failed to ingest reviews: Reviews array is required and cannot be empty", 0⟩ ∧
    searchSimilar q k call =
      ⟨.error "Failed to search reviews: Search query is required", 0⟩ := by
  refine ⟨rfl, rfl, ?_⟩
  have hlen : (jsTrim q).length = 0 := by rw [hq]; rfl
  simp [searchSimilar, hlen]

/-- Witness for C4 at a non-array input and the whitespace-only query. -/
theorem c4_fail_fast_witness :
    ingestReviews none (fun _ => .ok ⟨200⟩) =
      ⟨.error "Failed to ingest reviews: Reviews array is required and cannot be empty", 0⟩ ∧
    searchSimilar "   " 5 (fun _ => .ok ⟨200⟩) =
      ⟨.error "Failed to search reviews: Search query is required", 0⟩ := by
  have h := c4_fail_fast (fun _ => .ok ⟨200⟩) 5 "   " (by decide)
  exact ⟨h.1, h.2.2⟩

/-- C5: with no pagination supplied, getReviews sends page 1 and the size
default 10 under the wire key page_size, and every caller-supplied filter
parameter is merged over these defaults. -/
theorem c5_default_pagination (p : GetReviewsParams)
    (hpage : p.page = none) (hsize : p.size = none) :
    (getReviewsQuery p).lookup "page" = some (QVal.nat 1) ∧
    (getReviewsQuery p).lookup "page_size" = some (QVal.nat 10) ∧
    (∀ v, p.location = some v → ("location", QVal.str v) ∈ getReviewsQuery p) ∧
    (∀ v, p.sentiment = some v → ("sentiment", QVal.str v) ∈ getReviewsQuery p) ∧
    (∀ v, p.rating = some v → ("rating", QVal.nat v) ∈ getReviewsQuery p) ∧
    (∀ v, p.topic = some v → ("topic", QVal.str v) ∈ getReviewsQuery p) ∧
    (∀ v, p.search = some v → ("search", QVal.str v) ∈ getReviewsQuery p) := by
  refine ⟨?_, ?_, ?_, ?_, ?_, ?_, ?_⟩
  · simp [getReviewsQuery, List.lookup, hpage]
  · simp [getReviewsQuery, List.lookup]
  all_goals intro v hv
  all_goals simp [getReviewsQuery, optEntry, hv]

/-- Witness for C5: an unpaginated call with one filter. -/
theorem c5_default_pagination_witness :
    (getReviewsQuery ⟨some "NYC", none, none, none, none, none, none⟩).lookup "page" =
      some (QVal.nat 1) ∧
    (getReviewsQuery ⟨some "NYC", none, none, none, none, none, none⟩).lookup "page_size" =
      some (QVal.nat 10) ∧
    ("location", QVal.str "NYC") ∈
      getReviewsQuery ⟨some "NYC", none, none, none, none, none, none⟩ := by
  have h := c5_default_pagination ⟨some "NYC", none, none, none, none, none, none⟩ rfl rfl
  exact ⟨h.1, h.2.1, h.2.2.1 "NYC" rfl⟩

/-- C10: a caller-supplied size is sent alongside the page_size default
rather than replacing it — the query keeps page_size 10 and also carries the
caller's size — while a caller-supplied page does replace the page
default. -/
theorem c10_size_not_merged (p : GetReviewsParams) (v : Nat) (hs : p.size = some v) :
    (getReviewsQuery p).lookup "page_size" = some (QVal.nat 10) ∧
    ("size", QVal.nat v) ∈ getReviewsQuery p ∧
    ("page_size", QVal.nat 10) ∈ getReviewsQuery p ∧
    (∀ w, p.page = some w → (getReviewsQuery p).lookup "page" = some (QVal.nat w)) := by
  refine ⟨?_, ?_, ?_, ?_⟩
  · simp [getReviewsQuery, List.lookup]
  · simp [getReviewsQuery, optEntry, hs]
  · simp [getReviewsQuery]
  · intro w hw
    simp [getReviewsQuery, List.lookup, hw]

/-- Witness for C10: size 25 and page 2 supplied. -/
theorem c10_size_not_merged_witness :
    (getReviewsQuery ⟨none, none, none, none, none, some 2, some 25⟩).lookup "page_size" =
      some (QVal.nat 10) ∧
    ("size", QVal.nat 25) ∈ getReviewsQuery ⟨none, none, none, none, none, some 2, some 25⟩ ∧
    (getReviewsQuery ⟨none, none, none, none, none, some 2, some 25⟩).lookup "page" =
      some (QVal.nat 2) := by
  have h := c10_size_not_merged ⟨none, none, none, none, none, some 2, some 25⟩ 25 rfl
  exact ⟨h.1, h.2.1, h.2.2.2 2 rfl⟩

/-- C6: a 404 response makes getReview fail with the not-found message
naming the requested id (it contains "not found" and the id), and that
message differs from the one a 500 response produces, whatever the raw
error message of the 500 failure is. -/
theorem c6_not_found (id : Nat) (e404 e500 : AxiosError)
    (h404 : ∃ d, e404.response = some ⟨404, d⟩)
    (h500 : ∃ d, e500.response = some ⟨500, d⟩) :
    (getReview id (fun _ => .error e404)).result =
      .error ("Review with ID " ++ toString id ++ " not found") ∧
    containsSubstr ("Review with ID " ++ toString id ++ " not found") "not found" ∧
    containsSubstr ("Review with ID " ++ toString id ++ " not found") (toString id) ∧
    (getReview id (fun _ => .error e500)).result =
      .error ("Failed to fetch review: " ++ e500.message) ∧
    ("Review with ID " ++ toString id ++ " not found") ≠
      ("Failed to fetch review: " ++ e500.message) := by
  obtain ⟨d4, hr4⟩ := h404
  obtain ⟨d5, hr5⟩ := h500
  have ht4 := trace_const_error e404
  have ht5 := trace_const_error e500
  refine ⟨?_, ?_, ?_, ?_, ?_⟩
  · simp [getReview, ht4, hr4]
  · refine ⟨"Review with ID " ++ toString id ++ " ", "", ?_⟩
    rw [string_append_empty,
      string_append_assoc ("Review with ID " ++ toString id) " " "not found",
      show (" " ++ "not found" : String) = " not found" from by decide]
  · exact ⟨"Review with ID ", " not found", rfl⟩
  · simp [getReview, ht5, hr5]
  · rw [string_append_assoc]
    exact append_ne_append_of_head_ne "Review with ID " (toString id ++ " not found")
      "Failed to fetch review: " e500.message (by decide) (by decide) (by decide)

/-- Witness for C6 at id 7 with plain axios 404 and 500 errors. -/
theorem c6_not_found_witness :
    (getReview 7 (fun _ =>
      .error ⟨none, some ⟨404, none⟩, "Request failed with status code 404"⟩)).result =
      .error "Review with ID 7 not found" ∧
    (getReview 7 (fun _ =>
      .error ⟨none, some ⟨500, none⟩, "Request failed with status code 500"⟩)).result =
      .error "Failed to fetch review: Request failed with status code 500" ∧
    ("Review with ID 7 not found" : String) ≠
      "Failed to fetch review: Request failed with status code 500" := by
  have h := c6_not_found 7
    ⟨none, some ⟨404, none⟩, "Request failed with status code 404"⟩
    ⟨none, some ⟨500, none⟩, "Request failed with status code 500"⟩
    ⟨none, rfl⟩ ⟨none, rfl⟩
  have e1 : ("Review with ID " ++ toString (7 : Nat) ++ " not found" : String) =
      "Review with ID 7 not found" := by decide
  have e2 : ("Failed to fetch review: " ++ "Request failed with status code 500" : String) =
      "Failed to fetch review: Request failed with status code 500" := by decide
  refine ⟨?_, ?_, ?_⟩
  · rw [← e1]
    exact h.1
  · rw [← e2]
    exact h.2.2.2.1
  · rw [← e1, ← e2]
    exact h.2.2.2.2

/-- C7: a 503 response reaching the Facade error handlers makes suggestReply,
getAnalytics, searchSimilar and processReviews fail with their specific
feature-unavailable messages, each containing "unavailable" and each distinct
from the operation's generic failure message, whatever detail the generic
message would carry. -/
theorem c7_service_unavailable (call : Nat → Except AxiosError Response)
    (e : AxiosError) (d : Option String) (id k : Nat) (q : String)
    (hq : ¬(q = "" ∨ (jsTrim q).length = 0))
    (he : e.response = some ⟨503, d⟩)
    (ht : (retryRequestTrace call 0).result = .error e) :
    (suggestReply id call).result =
      .error "AI reply generation is currently unavailable" ∧
    (getAnalytics call).result = .error "Analytics are currently unavailable" ∧
    (searchSimilar q k call).result =
      .error "Search functionality is currently unavailable" ∧
    (processReviews call).result =
      .error "Batch processing is currently unavailable" ∧
    (∀ m, "AI reply generation is currently unavailable" ≠
      "Failed to generate reply: " ++ m) ∧
    (∀ m, "Analytics are currently unavailable" ≠ "Failed to fetch analytics: " ++ m) ∧
    (∀ m, "Search functionality is currently unavailable" ≠
      "Failed to search reviews: " ++ m) ∧
    (∀ m, "Batch processing is currently unavailable" ≠
      "Failed to process reviews: " ++ m) ∧
    containsSubstr "AI reply generation is currently unavailable" "unavailable" ∧
    containsSubstr "Analytics are currently unavailable" "unavailable" ∧
    containsSubstr "Search functionality is currently unavailable" "unavailable" ∧
    containsSubstr "Batch processing is currently unavailable" "unavailable" := by
  refine ⟨?_, ?_, ?_, ?_, ?_, ?_, ?_, ?_, ?_, ?_, ?_, ?_⟩
  · simp [suggestReply, ht, he]
  · simp [getAnalytics, ht, he]
  · simp [searchSimilar, hq, ht, he]
  · simp [processReviews, ht, he]
  · exact ne_append_of_head_ne _ _ (by decide) (by decide) (by decide)
  · exact ne_append_of_head_ne _ _ (by decide) (by decide) (by decide)
  · exact ne_append_of_head_ne _ _ (by decide) (by decide) (by decide)
  · exact ne_append_of_head_ne _ _ (by decide) (by decide) (by decide)
  · exact ⟨"AI reply generation is currently ", "", by decide⟩
  · exact ⟨"Analytics are currently ", "", by decide⟩
  · exact ⟨"Search functionality is currently ", "", by decide⟩
  · exact ⟨"Batch processing is currently ", "", by decide⟩

/-- Witness for C7: a persistent 503 failure surfaced to two of the
handlers. -/
theorem c7_service_unavailable_witness :
    (suggestReply 3 (fun _ =>
      .error ⟨none, some ⟨503, none⟩, "Request failed with status code 503"⟩)).result =
      .error "AI reply generation is currently unavailable" ∧
    (getAnalytics (fun _ =>
      .error ⟨none, some ⟨503, none⟩, "Request failed with status code 503"⟩)).result =
      .error "Analytics are currently unavailable" := by
  have h := c7_service_unavailable
    (fun _ => .error ⟨none, some ⟨503, none⟩, "Request failed with status code 503"⟩)
    ⟨none, some ⟨503, none⟩, "Request failed with status code 503"⟩ none 3 5 "great"
    (by decide) rfl
    (trace_const_error ⟨none, some ⟨503, none⟩, "Request failed with status code 503"⟩)
  exact ⟨h.1, h.2.1⟩

/-- C8 (counterexample): healthCheck is not issued under the standard retry
policy: for a persistent retryable 500 failure it performs exactly one
transport call, while the retry engine performs four. -/
theorem c8_counterexample :
    (healthCheck (fun _ =>
      .error ⟨none, some ⟨500, none⟩, "Request failed with status code 500"⟩)).networkCalls = 1 ∧
    shouldRetry ⟨none, some ⟨500, none⟩, "Request failed with status code 500"⟩ = true ∧
    (retryRequestTrace (fun _ =>
      .error ⟨none, some ⟨500, none⟩, "Request failed with status code 500"⟩)
      0).attempts.length = 4 := by
  refine ⟨rfl, rfl, ?_⟩
  rw [trace_const_retryable
    ⟨none, some ⟨500, none⟩, "Request failed with status code 500"⟩ rfl]
  rfl

/-- C8 (amended): healthCheck issues exactly one transport attempt — it
bypasses the retry engine entirely, so even a retryable failure is never
retried — and every failure surfaces with the "Health check failed: " prefix
followed by the classified detail (the structured detail field of the
response body when present, else the raw error message). -/
theorem c8_single_attempt (call : Nat → Except AxiosError Response) :
    (healthCheck call).networkCalls = 1 ∧
    (∀ e, call 0 = .error e →
      (healthCheck call).result =
        .error ("Health check failed: " ++ classifiedDetail e)) := by
  constructor
  · rcases h : call 0 with e | r
    · rcases hr : e.response with _ | resp <;> simp [healthCheck, h, hr]
    · simp [healthCheck, h]
  · intro e he
    rcases hr : e.response with _ | resp <;>
      simp [healthCheck, he, hr, classifiedDetail]

/-- Witness for C8 (amended) at a 503 failure carrying a structured
detail. -/
theorem c8_single_attempt_witness :
    (healthCheck (fun _ => .error ⟨none, some ⟨503, some "Service Unavailable"⟩,
      "Request failed with status code 503"⟩)).networkCalls = 1 ∧
    (healthCheck (fun _ => .error ⟨none, some ⟨503, some "Service Unavailable"⟩,
      "Request failed with status code 503"⟩)).result =
      .error "Health check failed: Service Unavailable" := by
  have h := c8_single_attempt (fun _ =>
    .error ⟨none, some ⟨503, some "Service Unavailable"⟩,
      "Request failed with status code 503"⟩)
  refine ⟨h.1, ?_⟩
  have h2 := h.2 ⟨none, some ⟨503, some "Service Unavailable"⟩,
    "Request failed with status code 503"⟩ rfl
  rw [h2, show ("Health check failed: " ++ classifiedDetail
    ⟨none, some ⟨503, some "Service Unavailable"⟩,
      "Request failed with status code 503"⟩ : String) =
    "Health check failed: Service Unavailable" from by decide]

/-- C9 (counterexample): the claimed recovery sequence Offline → Checking →
Online is false: after a successful poll, a browser went-offline signal and
a came-back-online signal, the status is immediately Online again — the
came-back-online handler neither re-enters Checking nor issues any network
call. -/
theorem c9_counterexample :
    displayStatus (monitorStep (monitorStep (monitorStep (monitorInit true)
      (.pollResult true)) .browserOffline) .browserOnline) = .Online ∧
    (DisplayStatus.Online ≠ DisplayStatus.Checking) ∧
    monitorCalls .browserOnline = 0 := by
  exact ⟨rfl, by decide, rfl⟩

/-- C9 (amended): the status starts in Checking; while the browser is
online, a successful poll shows Online and a failed poll Offline; a browser
went-offline signal shows Offline immediately with no network call; a
came-back-online signal merely restores the last polled api status — it
does not re-enter Checking and performs no network call — and the next poll
happens only at the next 30-second interval tick. -/
theorem c9_monitor_transitions :
    displayStatus (monitorInit true) = .Checking ∧
    (∀ s : MonitorState, s.isOnline = true →
      displayStatus (monitorStep s (.pollResult true)) = .Online) ∧
    (∀ s : MonitorState, s.isOnline = true →
      displayStatus (monitorStep s (.pollResult false)) = .Offline) ∧
    (∀ s : MonitorState, displayStatus (monitorStep s .browserOffline) = .Offline) ∧
    monitorCalls .browserOffline = 0 ∧
    (∀ s : MonitorState, (monitorStep s .browserOnline).apiStatus = s.apiStatus) ∧
    monitorCalls .browserOnline = 0 := by
  refine ⟨rfl, ?_, ?_, ?_, rfl, ?_, rfl⟩
  · intro s hs
    simp [monitorStep, displayStatus, hs]
  · intro s hs
    simp [monitorStep, displayStatus, hs]
  · intro s
    simp [monitorStep, displayStatus]
  · intro s
    simp [monitorStep]

/-- Witness for C9 (amended) at concrete monitor states. -/
theorem c9_monitor_transitions_witness :
    displayStatus (monitorStep ⟨true, ApiStatus.checking⟩ (.pollResult true)) = .Online ∧
    displayStatus (monitorStep ⟨true, ApiStatus.online⟩ (.pollResult false)) = .Offline ∧
    displayStatus (monitorStep ⟨true, ApiStatus.online⟩ .browserOffline) = .Offline := by
  have h := c9_monitor_transitions
  exact ⟨h.2.1 ⟨true, ApiStatus.checking⟩ rfl, h.2.2.1 ⟨true, ApiStatus.online⟩ rfl,
    h.2.2.2.1 ⟨true, ApiStatus.online⟩⟩
